import Mathlib

/-!
Verification development for the FLogFS core (flogfs.c).

The definitions below are a shallow embedding of the C source in src/src/flogfs.c
together with the geometry constants of inc/flogfs_conf.sample.h and the record
layouts of the matching flogfs_private.h.  Machine integers are modelled as Nat
with explicit `% 2^32` where 32-bit wraparound can occur; C control flow that
falls off the end of a non-void function, dereferences NULL, or loops without
bound is modelled by an `Option` result whose `none` value means "no defined
result".  Flash side effects are recorded as an explicit log of operations.
-/

namespace FLogFS

/-! ## Geometry and layout constants (flogfs_conf.sample.h / flogfs_private.h) -/

def FS_SECTOR_SIZE : Nat := 512

def FS_SECTORS_PER_PAGE : Nat := 4

def FS_PAGES_PER_BLOCK : Nat := 64

def FS_NUM_BLOCKS : Nat := 1024

def FS_SECTORS_PER_BLOCK : Nat := FS_SECTORS_PER_PAGE * FS_PAGES_PER_BLOCK

def FS_PREALLOCATE_SIZE : Nat := 10

/-- Special sector indices: the tail sector sits in the first page,
`FLOG_FILE_TAIL_SECTOR = FS_SECTORS_PER_PAGE - 2 = 2`. -/
def FLOG_FILE_TAIL_SECTOR : Nat := FS_SECTORS_PER_PAGE - 2

def FLOG_FILE_INVALIDATION_SECTOR : Nat := FS_SECTORS_PER_PAGE - 1

def FLOG_INODE_TAIL_SECTOR : Nat := FS_SECTORS_PER_PAGE - 2

def FLOG_INODE_INVALIDATION_SECTOR : Nat := FS_SECTORS_PER_PAGE - 1

/-- All-ones 16-bit value: `FLOG_BLOCK_IDX_INVALID = (flog_block_idx_t)(-1)`. -/
def FLOG_BLOCK_IDX_INVALID : Nat := 0xFFFF

/-- All-ones 32-bit value: `FLOG_TIMESTAMP_INVALID = (flog_timestamp_t)(-1)`. -/
def FLOG_TIMESTAMP_INVALID : Nat := 0xFFFFFFFF

def FLOG_FILE_ID_INVALID : Nat := 0xFFFFFFFF

def FLOG_BLOCK_AGE_INVALID : Nat := 0xFFFFFFFF

/-- C `sizeof(flog_file_sector0_header_t)`: `{u32 age; u32 file_id}` is 8 bytes. -/
def SIZEOF_FILE_SECTOR0_HEADER : Nat := 8

/-- C `sizeof(flog_file_tail_sector_header_t)`: `{u16 next_block; u32 next_age;
u32 timestamp; u16 bytes_in_block}` occupies 16 bytes with natural 4-byte
alignment (2 bytes of padding after `next_block` and after `bytes_in_block`). -/
def SIZEOF_FILE_TAIL_SECTOR_HEADER : Nat := 16

/-- C enumeration `flog_result_t`: FLOG_FAILURE = 0, FLOG_SUCCESS = 1. -/
def FLOG_FAILURE : Nat := 0

def FLOG_SUCCESS : Nat := 1

def FLOG_BLOCK_TYPE_UNALLOCATED : Nat := 0xFF

def FLOG_BLOCK_TYPE_INODE : Nat := 1

def FLOG_BLOCK_TYPE_FILE : Nat := 2

/-! ## 32-bit and 16-bit arithmetic helpers -/

def U32_MOD : Nat := 2 ^ 32

/-- Addition of two `uint32_t` values. -/
def addU32 (a b : Nat) : Nat := (a + b) % U32_MOD

/-- Subtraction of two `uint32_t` values (wraparound semantics). -/
def subU32 (a b : Nat) : Nat := (a % U32_MOD + (U32_MOD - b % U32_MOD)) % U32_MOD

/-- C comparison `x == -1` where `x` has type `uint16_t` and `int` is 32 bits
wide (the reference targets 32-bit ARM): `x` is promoted to `int`, keeping its
value in `[0, 65535]`, and is compared with the `int` value `-1`.  The result
is `false` for every representable `x`, including the erased-state `0xFFFF`. -/
def u16_eq_minus1 (x : Nat) : Bool := (x : Int) == (-1 : Int)

/-- C comparison `x == -1` where `x` has type `uint32_t`: `-1` is converted to
`0xFFFFFFFF`, so the comparison is true exactly for the all-ones value. -/
def u32_eq_minus1 (x : Nat) : Bool := x == 0xFFFFFFFF

/-! ## Preallocation list (flog_prealloc_push / flog_prealloc_pop)

The C state is `flog_prealloc_list_t { flog_block_alloc_t blocks[10]; uint16_t n;
flog_block_age_t age_sum; }`.  The fixed array is modelled as a list of length
`FS_PREALLOCATE_SIZE`; `pentry` is the array read `blocks[i]`. -/

structure flog_block_alloc_t where
  block : Nat
  age : Nat
  deriving DecidableEq, Repr

structure flog_prealloc_list_t where
  blocks : List flog_block_alloc_t
  n : Nat
  age_sum : Nat
  deriving DecidableEq, Repr

def pentry (st : flog_prealloc_list_t) (i : Nat) : flog_block_alloc_t :=
  st.blocks.getD i ⟨0, 0⟩

/-- Body of the insertion case of `flog_prealloc_push`, entered at index `i`
(`1 ≤ i ≤ n-1`): if the list is full the oldest entry's age leaves `age_sum`;
entries `i .. MIN(n, FS_PREALLOCATE_SIZE-1)` shift up one slot (the descending
C loop reads each `blocks[j-1]` before overwriting it); `n` grows if below
capacity; the new entry lands at index `i` and its age joins `age_sum`. -/
def flog_prealloc_push_insert (st : flog_prealloc_list_t) (block age i : Nat) :
    flog_prealloc_list_t :=
  let sum1 := if st.n = FS_PREALLOCATE_SIZE then
      subU32 st.age_sum (pentry st (FS_PREALLOCATE_SIZE - 1)).age
    else st.age_sum
  let jhi := min st.n (FS_PREALLOCATE_SIZE - 1)
  let shifted := (List.range FS_PREALLOCATE_SIZE).map
    (fun j => if i + 1 ≤ j ∧ j ≤ jhi then pentry st (j - 1) else pentry st j)
  let n2 := if st.n < FS_PREALLOCATE_SIZE then st.n + 1 else st.n
  { blocks := shifted.set i ⟨block, age⟩, n := n2, age_sum := addU32 sum1 age }

/-- Search loop of `flog_prealloc_push`: `for (i = n - 1; i; i--)`, stopping at
`i = 0` without inserting (the candidate is dropped), and inserting the first
time (scanning downward) `age <= blocks[i].age` holds. -/
def flog_prealloc_push_loop (st : flog_prealloc_list_t) (block age : Nat) :
    Nat → flog_prealloc_list_t
  | 0 => st
  | i + 1 =>
    if age ≤ (pentry st (i + 1)).age then flog_prealloc_push_insert st block age (i + 1)
    else flog_prealloc_push_loop st block age i

/-- Model of `flog_prealloc_push(block, age)` from flogfs.c. -/
def flog_prealloc_push (st : flog_prealloc_list_t) (block age : Nat) :
    flog_prealloc_list_t :=
  if st.n = 0 then
    { blocks := st.blocks.set 0 ⟨block, age⟩, n := 1, age_sum := addU32 st.age_sum age }
  else if st.n = FS_PREALLOCATE_SIZE ∧ (pentry st (st.n - 1)).age < age then
    st
  else
    flog_prealloc_push_loop st block age (st.n - 1)

/-- Model of `flog_prealloc_pop()` from flogfs.c.  On an empty list the C code
returns a value whose `block` field is `FLOG_BLOCK_IDX_INVALID` and whose `age`
field is never assigned; callers only test `block`, and the unassigned age is
modelled as 0.  Note that the source removes `blocks[0]` and decrements `n`
without touching `age_sum`. -/
def flog_prealloc_pop (st : flog_prealloc_list_t) :
    flog_block_alloc_t × flog_prealloc_list_t :=
  if st.n = 0 then (⟨FLOG_BLOCK_IDX_INVALID, 0⟩, st)
  else
    let b := pentry st 0
    let n2 := st.n - 1
    let blocks2 := (List.range FS_PREALLOCATE_SIZE).map
      (fun i => if i < n2 then pentry st (i + 1) else pentry st i)
    (b, { st with blocks := blocks2, n := n2 })

/-- Ages of the live entries (`blocks[0 .. n-1]`) of the preallocation list. -/
def preallocLiveAges (st : flog_prealloc_list_t) : List Nat :=
  (st.blocks.take st.n).map flog_block_alloc_t.age

/-- Empty preallocation list, the state after `flogfs_init` zeroes the static
filesystem structure. -/
def preallocEmpty : flog_prealloc_list_t :=
  ⟨List.replicate FS_PREALLOCATE_SIZE ⟨0, 0⟩, 0, 0⟩

/-- C9: after `flog_prealloc_push(4, 5)` on the empty list followed by
`flog_prealloc_pop()`, the list is empty again but `age_sum` is still 5, not
the sum 0 of the ages of the entries currently in the list: `flog_prealloc_pop`
removes the youngest entry without subtracting its age from `age_sum`, so the
claimed invariant "age_sum equals the sum of the ages of the entries in the
list" is broken by this two-operation sequence from the empty list. -/
theorem c9_prealloc_age_sum_out_of_sync :
    (flog_prealloc_push preallocEmpty 4 5).age_sum = 5 ∧
    (flog_prealloc_push preallocEmpty 4 5).n = 1 ∧
    ((flog_prealloc_pop (flog_prealloc_push preallocEmpty 4 5)).2).n = 0 ∧
    ((flog_prealloc_pop (flog_prealloc_push preallocEmpty 4 5)).2).age_sum = 5 ∧
    (preallocLiveAges ((flog_prealloc_pop (flog_prealloc_push preallocEmpty 4 5)).2)).sum = 0 := by
  decide

/-! ## Flash operation log

Durable side effects of the write paths are recorded as a log of operations.
`writeSector` records `(block, sector, offset, nbytes)` of a
`flash_write_sector` call; `writeSpare` a `flash_write_spare` call; `commit`
a `flash_commit`; `eraseBlock` a `flash_erase_block`. -/

inductive FlashOp where
  | writeSector (block sector offset nbytes : Nat)
  | writeSpare (block sector : Nat)
  | commit
  | eraseBlock (block : Nat)
  deriving DecidableEq, Repr

/-! ## Filesystem state used by the allocator and the write path

Models the fields of the static `flogfs_t` instance that the allocation and
write paths read or mutate (`t`, `num_free_blocks`, `prealloc`,
`allocate_head`), together with two read-only views of the flash contents
consumed by `flog_allocate_block_iterate`: the universal sector-0 age of each
block and each block's invalidation-sector timestamp.  The page-cache shim
(`flog_open_page` / `flog_open_sector`) only gates these reads and has no
effect on their values, so it is not modelled separately. -/

structure FsState where
  t : Nat
  num_free_blocks : Nat
  prealloc : flog_prealloc_list_t
  allocate_head : Nat
  sector0_age : Nat → Nat
  invalidation_ts : Nat → Nat

/-- Model of `flog_allocate_block_iterate()`: examine the block at
`allocate_head`.  If its universal sector-0 age reads as all-ones (`age == -1`
on `uint32_t`, true exactly for `0xFFFFFFFF`), the block has never been
allocated and is a candidate of age 0.  Otherwise, if its invalidation-sector
timestamp is not `FLOG_TIMESTAMP_INVALID`, the block has been invalidated and
is a candidate with the age read from its header.  Otherwise no candidate is
produced (`block` stays `FLOG_BLOCK_IDX_INVALID`; the C code leaves `age`
unassigned on this path, modelled as 0).  The head always advances by one
modulo `FS_NUM_BLOCKS`. -/
def flog_allocate_block_iterate (fs : FsState) : flog_block_alloc_t × FsState :=
  let head := fs.allocate_head
  let b : flog_block_alloc_t :=
    if u32_eq_minus1 (fs.sector0_age head) then ⟨head, 0⟩
    else if fs.invalidation_ts head ≠ FLOG_TIMESTAMP_INVALID then
      ⟨head, fs.sector0_age head⟩
    else ⟨FLOG_BLOCK_IDX_INVALID, 0⟩
  (b, { fs with allocate_head := (head + 1) % FS_NUM_BLOCKS })

/-- Search loop of `flog_allocate_block`: `for (i = FS_NUM_BLOCKS; i; i--)`
calls `flog_allocate_block_iterate` and tests its result, but the body of the
test is empty (a TODO in the source): no candidate is claimed, no break is
taken, and the loop always runs all `FS_NUM_BLOCKS` iterations, keeping only
the allocator-head movement. -/
def flog_allocate_block_loop : Nat → FsState → FsState
  | 0, fs => fs
  | i + 1, fs => flog_allocate_block_loop i (flog_allocate_block_iterate fs).2

/-- Model of `flog_allocate_block()`.  If `num_free_blocks == 0` it returns a
value with `block = FLOG_BLOCK_IDX_INVALID` (the C code leaves `age`
unassigned there, modelled as 0).  If the preallocation list pops a valid
block, that block is returned.  Otherwise the search loop runs and control
reaches the closing brace of the non-void function without any `return`
statement: the returned value is not defined, modelled as `none`. -/
def flog_allocate_block (fs : FsState) : Option flog_block_alloc_t × FsState :=
  if fs.num_free_blocks = 0 then (some ⟨FLOG_BLOCK_IDX_INVALID, 0⟩, fs)
  else
    let popped := flog_prealloc_pop fs.prealloc
    let fs1 := { fs with prealloc := popped.2 }
    if popped.1.block ≠ FLOG_BLOCK_IDX_INVALID then (some popped.1, fs1)
    else
      (none, flog_allocate_block_loop FS_NUM_BLOCKS fs1)

/-- Filesystem state with exactly one free block, an empty preallocation list,
and a flash image on which every block reads as never-allocated, so that every
iteration of the allocator search loop produces a free candidate. -/
def fsOneFree : FsState :=
  { t := 0
    num_free_blocks := 1
    prealloc := preallocEmpty
    allocate_head := 0
    sector0_age := fun _ => 0xFFFFFFFF
    invalidation_ts := fun _ => 0xFFFFFFFF }

/-- C7: with `num_free_blocks = 1` and an empty preallocation list, even though
every iterated block is a free candidate, `flog_allocate_block` produces no
defined return value: the search loop never claims a candidate (its success
test has an empty body) and control falls off the end of the non-void
function, so the result is not the well-defined `{block, age}`-or-INVALID
value the claim requires. -/
theorem c7_allocate_block_falls_off_end :
    (flog_allocate_block fsOneFree).1 = none := by
  rfl

/-! ## Byte-buffer helpers

The per-file `sector_buffer[FS_SECTOR_SIZE]` is modelled as a list of bytes.
The C code stores header fields into it through union aliases; these little
endian stores and the `memcpy` into the buffer are modelled explicitly. -/

def addU16 (a b : Nat) : Nat := (a + b) % 65536

def subU16 (a b : Nat) : Nat := (a % 65536 + (65536 - b % 65536)) % 65536

def setU8 (l : List Nat) (i v : Nat) : List Nat := l.set i (v % 256)

def setU16 (l : List Nat) (i v : Nat) : List Nat :=
  (l.set i (v % 256)).set (i + 1) (v / 256 % 256)

def setU32 (l : List Nat) (i v : Nat) : List Nat :=
  ((((l.set i (v % 256)).set (i + 1) (v / 256 % 256)).set
    (i + 2) (v / 65536 % 256)).set (i + 3) (v / 16777216 % 256))

/-- Model of `memcpy(l + i, src, src.length)` inside a buffer. -/
def memcpyAt (l : List Nat) (i : Nat) (src : List Nat) : List Nat :=
  l.take i ++ src ++ l.drop (i + src.length)

/-! ## Write-file state (flog_write_file_t) and the write path -/

structure flog_write_file_t where
  write_head : Nat
  block : Nat
  sector : Nat
  offset : Nat
  sector_remaining_bytes : Nat
  bytes_in_block : Nat
  block_age : Nat
  id : Nat
  sector_buffer : List Nat
  deriving DecidableEq, Repr

/-- Model of `flog_increment_sector(sector)`: sectors are produced in the
order `0, 1, 4, 5, ..., FS_SECTORS_PER_BLOCK - 1, FLOG_FILE_TAIL_SECTOR`. -/
def flog_increment_sector (sector : Nat) : Nat :=
  if sector = FLOG_FILE_TAIL_SECTOR - 1 then FS_SECTORS_PER_PAGE
  else if sector = FS_PAGES_PER_BLOCK * FS_SECTORS_PER_PAGE - 1 then FLOG_FILE_TAIL_SECTOR
  else sector + 1

/-- Result of a write-path call: the `uint32_t` (or `flog_result_t`) return
value, the file and filesystem states after the call, and the log of flash
operations the call performed. -/
structure WriteResult where
  ret : Nat
  file : flog_write_file_t
  fs : FsState
  log : List FlashOp

/-- Model of the `while (nbytes)` loop of `flogfs_write`, one constructor
case per iteration; `fuel` bounds the number of iterations and `none` means
the C loop has not produced a result within that bound (or hit a path with no
defined result).  The three branches mirror the source: tail-sector case
(allocate a successor block, seal the tail, continue in the new block),
ordinary full-sector case (write and commit the sector, advance), and the
final buffering case for `nbytes < sector_remaining_bytes`, in which the
source sets `nbytes = 0` before adding `nbytes` to `sector_remaining_bytes`
(subtracting), `offset`, `bytes_in_block` and `write_head`, so all four
updates add zero and `count` is never increased. -/
def flogfs_write_loop (fs : FsState) (file : flog_write_file_t) (src : List Nat)
    (nbytes count : Nat) (log : List FlashOp) : Nat → Option WriteResult
  | 0 => none
  | fuel + 1 =>
    if nbytes = 0 then some ⟨count, file, fs, log⟩
    else if file.sector_remaining_bytes ≤ nbytes then
      if file.sector = FLOG_FILE_TAIL_SECTOR then
        match flog_allocate_block fs with
        | (none, _) => none
        | (some ba, fs1) =>
          if ba.block = FLOG_BLOCK_IDX_INVALID then
            some ⟨FLOG_FAILURE, file, fs1, log⟩
          else
            let fs2 := { fs1 with t := addU32 fs1.t 1 }
            let bib := addU16 file.bytes_in_block
              (FS_SECTOR_SIZE - SIZEOF_FILE_TAIL_SECTOR_HEADER)
            let buf := setU16 (setU32 (setU32 (setU16 file.sector_buffer 0 ba.block)
              4 (addU32 ba.age 1)) 8 fs2.t) 12 bib
            let log2 := log ++
              [FlashOp.writeSector file.block FLOG_FILE_TAIL_SECTOR 0 file.offset,
               FlashOp.writeSector file.block FLOG_FILE_TAIL_SECTOR file.offset
                 (FS_SECTOR_SIZE - file.offset),
               FlashOp.writeSpare file.block FLOG_FILE_TAIL_SECTOR,
               FlashOp.commit]
            let written := FS_SECTOR_SIZE - file.offset
            let file2 : flog_write_file_t :=
              { write_head := addU32 file.write_head written
                block := ba.block
                sector := 0
                offset := SIZEOF_FILE_SECTOR0_HEADER
                sector_remaining_bytes := FS_SECTOR_SIZE - SIZEOF_FILE_SECTOR0_HEADER
                bytes_in_block := 0
                block_age := ba.age
                id := file.id
                sector_buffer := buf }
            flogfs_write_loop fs2 file2 (src.drop written) (subU32 nbytes written)
              (addU32 count written) log2 fuel
      else
        let written := FS_SECTOR_SIZE - file.offset
        let buf := if file.sector = 0 then
            setU32 (setU32 file.sector_buffer 4 file.id) 0 file.block_age
          else file.sector_buffer
        let log2 := log ++
          (if file.offset ≠ 0 then
            [FlashOp.writeSector file.block file.sector 0 file.offset]
          else []) ++
          [FlashOp.writeSector file.block file.sector file.offset written,
           FlashOp.commit]
        let sector2 := flog_increment_sector file.sector
        let offset2 := if sector2 = FLOG_FILE_TAIL_SECTOR then
            SIZEOF_FILE_TAIL_SECTOR_HEADER
          else 0
        let file2 := { file with
          sector := sector2
          offset := offset2
          bytes_in_block := addU16 file.bytes_in_block written
          sector_remaining_bytes := FS_SECTOR_SIZE - offset2
          write_head := addU32 file.write_head written
          sector_buffer := buf }
        flogfs_write_loop fs file2 (src.drop written) (subU32 nbytes written)
          (addU32 count written) log2 fuel
    else
      let buf := memcpyAt file.sector_buffer file.offset (src.take nbytes)
      let nbytes2 := 0
      some ⟨count, { file with
        sector_buffer := buf
        sector_remaining_bytes := file.sector_remaining_bytes - nbytes2
        offset := file.offset + nbytes2
        bytes_in_block := file.bytes_in_block + nbytes2
        write_head := file.write_head + nbytes2 }, fs, log⟩

/-- Model of `flogfs_write(file, src, nbytes)`.  The fuel `nbytes + 2` bounds
the loop: every iteration that continues consumes at least one source byte
whenever `offset < FS_SECTOR_SIZE`. -/
def flogfs_write (fs : FsState) (file : flog_write_file_t) (src : List Nat)
    (nbytes : Nat) : Option WriteResult :=
  flogfs_write_loop fs file src nbytes 0 [] (nbytes + 2)

/-- Model of `flogfs_close_write(file)`.  The `file->sector == 0` branch of
the source is empty (nothing is flushed), the tail-sector branch seals the
block after allocating a successor, and the `file->offset` branch writes the
buffered partial sector.  The union in the source aliases `sector_buffer`
with the tail-header and spare layouts, so the spare stores land in bytes
0..3 of the buffer; these aliased stores are modelled explicitly. -/
def flogfs_close_write (fs : FsState) (file : flog_write_file_t) : Option WriteResult :=
  if file.sector = 0 then
    some ⟨FLOG_SUCCESS, file, fs, []⟩
  else if file.sector = FLOG_FILE_TAIL_SECTOR then
    match flog_allocate_block fs with
    | (none, _) => none
    | (some ba, fs1) =>
      if ba.block = FLOG_BLOCK_IDX_INVALID then
        some ⟨FLOG_FAILURE, file, fs1, []⟩
      else
        let fs2 := { fs1 with t := addU32 fs1.t 1 }
        let buf1 := setU16 (setU32 (setU32 (setU16 file.sector_buffer 12
          file.bytes_in_block) 4 ba.age) 8 fs2.t) 0 ba.block
        let buf2 := setU16 buf1 2 (subU16 file.offset SIZEOF_FILE_TAIL_SECTOR_HEADER)
        let log2 :=
          [FlashOp.writeSector file.block FLOG_FILE_TAIL_SECTOR 0 file.offset,
           FlashOp.writeSpare file.block FLOG_FILE_TAIL_SECTOR,
           FlashOp.commit,
           FlashOp.eraseBlock ba.block]
        let buf3 := setU32 (setU32 buf2 0 (addU32 ba.age 1)) 4 file.id
        let buf4 := setU16 (setU8 buf3 0 FLOG_BLOCK_TYPE_FILE) 2 0
        let log5 := log2 ++
          [FlashOp.writeSector ba.block 0 0 SIZEOF_FILE_SECTOR0_HEADER,
           FlashOp.writeSpare ba.block 0,
           FlashOp.commit]
        some ⟨FLOG_SUCCESS, { file with sector_buffer := buf4 }, fs2, log5⟩
  else if file.offset ≠ 0 then
    let buf1 := setU16 file.sector_buffer 2 file.offset
    some ⟨FLOG_SUCCESS, { file with sector_buffer := buf1 }, fs,
      [FlashOp.writeSector file.block file.sector 0 file.offset,
       FlashOp.writeSpare file.block file.sector,
       FlashOp.commit]⟩
  else
    some ⟨FLOG_SUCCESS, file, fs, []⟩

/-! ## Concrete write-path states used by the claims about flogfs_write -/

/-- Write file in the middle of a data sector, with 500 bytes of room. -/
def fileMidSector : flog_write_file_t :=
  { write_head := 700, block := 12, sector := 5, offset := 12
    sector_remaining_bytes := 500, bytes_in_block := 200, block_age := 3
    id := 1, sector_buffer := List.replicate 512 0 }

/-- C2: a 3-byte `flogfs_write` into a sector with 500 bytes remaining takes
the buffering branch; the source zeroes `nbytes` before using it in the
bookkeeping updates and never adds the buffered bytes to `count`, so the call
returns 0 (not 3) and leaves `offset`, `bytes_in_block`,
`sector_remaining_bytes` and `write_head` unchanged, although the bytes were
copied into `sector_buffer`. -/
theorem c2_buffered_write_advances_nothing :
    flogfs_write fsOneFree fileMidSector [10, 20, 30] 3 =
      some ⟨0, { fileMidSector with
        sector_buffer := memcpyAt fileMidSector.sector_buffer 12 [10, 20, 30] },
        fsOneFree, []⟩ := by
  rfl

/-- Filesystem state with no free blocks (media full): `flog_allocate_block`
returns `FLOG_BLOCK_IDX_INVALID` immediately. -/
def fsNoFree : FsState :=
  { t := 0
    num_free_blocks := 0
    prealloc := preallocEmpty
    allocate_head := 0
    sector0_age := fun _ => 0xFFFFFFFF
    invalidation_ts := fun _ => 0xFFFFFFFF }

/-- Write file positioned at the start of the last data sector of its block
(sector `FS_SECTORS_PER_BLOCK - 1 = 255`); the next sector in write order is
the tail sector. -/
def fileAtLastDataSector : flog_write_file_t :=
  { write_head := 0, block := 12, sector := 255, offset := 0
    sector_remaining_bytes := 512, bytes_in_block := 0, block_age := 3
    id := 1, sector_buffer := List.replicate 512 0 }

/-- State of `fileAtLastDataSector` after its sector 255 has been filled and
committed: positioned at the tail sector with the tail header reserved. -/
def fileAtTailAfterSpan : flog_write_file_t :=
  { fileAtLastDataSector with
    sector := FLOG_FILE_TAIL_SECTOR
    offset := SIZEOF_FILE_TAIL_SECTOR_HEADER
    sector_remaining_bytes := FS_SECTOR_SIZE - SIZEOF_FILE_TAIL_SECTOR_HEADER
    bytes_in_block := 512
    write_head := 512 }

/-- Flash operations performed by the spanning write of `c3_counterexample`:
the full data sector 255 is written and committed before the tail-sector
allocation fails. -/
def spanLog : List FlashOp :=
  [FlashOp.writeSector 12 255 0 512, FlashOp.commit]

/-- C3 counterexample: with `num_free_blocks = 0`, a 1008-byte write starting
at sector 255 returns 0 (the tail-sector allocation fails), as the claim
says, but a sector of that same failed call has already been durably
committed: the log contains the write and commit of sector 255.  This
falsifies the claim that no sector of the failed write call is committed to
flash. -/
theorem c3_counterexample :
    flogfs_write fsNoFree fileAtLastDataSector (List.replicate 1008 90) 1008 =
      some ⟨0, fileAtTailAfterSpan, fsNoFree, spanLog⟩ ∧
    FlashOp.commit ∈ spanLog := by
  exact ⟨rfl, by decide⟩

/-- Write file positioned exactly at the tail sector with the whole remaining
tail payload to fill. -/
def fileAtTailSector : flog_write_file_t :=
  { write_head := 512, block := 12, sector := FLOG_FILE_TAIL_SECTOR
    offset := SIZEOF_FILE_TAIL_SECTOR_HEADER
    sector_remaining_bytes := FS_SECTOR_SIZE - SIZEOF_FILE_TAIL_SECTOR_HEADER
    bytes_in_block := 512, block_age := 3, id := 1
    sector_buffer := List.replicate 512 0 }

/-- C3 amended: when `num_free_blocks = 0`, a `flogfs_write` that reaches the
tail sector returns 0 (`FLOG_FAILURE`) and makes no durable commit at or
after the point of failure — the tail sector is not written and the file and
filesystem states are unchanged by the failing step — but full non-tail
sectors filled earlier in the same call were already committed, as the
concrete spanning write shows. -/
theorem c3_amended_write_fails_cleanly_at_tail :
    (∀ (fs : FsState) (f : flog_write_file_t) (src : List Nat) (n : Nat),
      fs.num_free_blocks = 0 → f.sector = FLOG_FILE_TAIL_SECTOR →
      f.sector_remaining_bytes ≤ n → 0 < n →
      flogfs_write fs f src n = some ⟨FLOG_FAILURE, f, fs, []⟩) ∧
    flogfs_write fsNoFree fileAtLastDataSector (List.replicate 1008 90) 1008 =
      some ⟨0, fileAtTailAfterSpan, fsNoFree, spanLog⟩ := by
  constructor
  · intro fs f src n h0 hTail hRem hn
    show flogfs_write_loop fs f src n 0 [] (n + 2) = _
    have h2 : n + 2 = (n + 1) + 1 := rfl
    rw [h2, flogfs_write_loop]
    rw [if_neg (Nat.pos_iff_ne_zero.mp hn), if_pos hRem, if_pos hTail]
    have halloc : flog_allocate_block fs = (some ⟨FLOG_BLOCK_IDX_INVALID, 0⟩, fs) := by
      rw [flog_allocate_block, if_pos h0]
    rw [halloc]
    rfl
  · rfl

/-- Witness for `c3_amended_write_fails_cleanly_at_tail`: the general part
applied at a concrete out-of-space state positioned at the tail sector. -/
theorem c3_amended_write_fails_cleanly_at_tail_witness :
    flogfs_write fsNoFree fileAtTailSector (List.replicate 496 7) 496 =
      some ⟨FLOG_FAILURE, fileAtTailSector, fsNoFree, []⟩ :=
  c3_amended_write_fails_cleanly_at_tail.1 fsNoFree fileAtTailSector
    (List.replicate 496 7) 496 rfl rfl (by decide) (by decide)

/-! ## Claim C1: the format/mount/write/close/read round trip -/

/-- Write file as `flogfs_open_write` leaves it for a freshly created file:
sector 0, `offset = sizeof(flog_file_sector0_header_t)`, a fresh block.  (The
source does not assign `write_head` or `bytes_in_block` on this path; they
are taken as 0 here.) -/
def fileFreshNew : flog_write_file_t :=
  { write_head := 0, block := 20, sector := 0
    offset := SIZEOF_FILE_SECTOR0_HEADER
    sector_remaining_bytes := FS_SECTOR_SIZE - SIZEOF_FILE_SECTOR0_HEADER
    bytes_in_block := 0, block_age := 1, id := 1
    sector_buffer := List.replicate 512 0 }

def helloBytes : List Nat := [104, 101, 108, 108, 111]

/-- State of `fileFreshNew` after the 5 bytes have been copied into its RAM
sector buffer. -/
def fileFreshAfterHello : flog_write_file_t :=
  { fileFreshNew with
    sector_buffer := memcpyAt fileFreshNew.sector_buffer SIZEOF_FILE_SECTOR0_HEADER helloBytes }

/-- C1: writing the 5 bytes of "hello" to a freshly opened file returns 0 and
performs no flash operation (the bytes only reach the RAM sector buffer), and
the subsequent `flogfs_close_write` takes the empty `file->sector == 0`
branch, also performing no flash operation.  No byte of the data is ever
durably written, so the round trip of the claim cannot return the data: a
subsequent `flogfs_open_read`/`flogfs_read` can only see erased flash. -/
theorem c1_roundtrip_write_never_reaches_flash :
    flogfs_write fsOneFree fileFreshNew helloBytes 5 =
      some ⟨0, fileFreshAfterHello, fsOneFree, []⟩ ∧
    flogfs_close_write fsOneFree fileFreshAfterHello =
      some ⟨FLOG_SUCCESS, fileFreshAfterHello, fsOneFree, []⟩ := by
  exact ⟨rfl, rfl⟩

/-! ## Read path (flogfs_read) -/

structure flog_read_file_t where
  read_head : Nat
  block : Nat
  sector : Nat
  offset : Nat
  sector_remaining_bytes : Nat
  id : Nat
  deriving DecidableEq, Repr

/-- Read-only views of the flash contents consumed by `flogfs_read`: the
spare `nbytes` field of each `(block, sector)`, the `next_block` field of
each block's tail-sector header, and the `file_id` of each block's sector-0
header. -/
structure ReadFlash where
  spare_nbytes : Nat → Nat → Nat
  tail_next_block : Nat → Nat
  sector0_file_id : Nat → Nat

/-- Advance step of `flogfs_read`, entered when
`file->sector_remaining_bytes == 0`; `none` models `goto done` (end of
file).  Crossing the tail sector follows `next_block` and checks the new
block's `file_id`; within a block the next sector's spare is read and the
source tests `file_sector_spare.nbytes == -1`, a `uint16_t` versus `int`
comparison that is false even for the erased-state value `0xFFFF`.  After the
hop out of a tail sector the source keeps the `nbytes` read from the new
block's sector-0 spare even when it moves to sector 1. -/
def flogfs_read_advance (fl : ReadFlash) (file : flog_read_file_t) :
    Option flog_read_file_t :=
  if file.sector = FLOG_FILE_TAIL_SECTOR then
    let b := fl.tail_next_block file.block
    if fl.sector0_file_id b ≠ file.id then none
    else
      let nb := fl.spare_nbytes b 0
      let sector2 := if nb = 0 then 1 else 0
      let offset2 := if sector2 = FLOG_FILE_TAIL_SECTOR then SIZEOF_FILE_TAIL_SECTOR_HEADER
        else if sector2 = 0 then SIZEOF_FILE_SECTOR0_HEADER else 0
      some { file with
        block := b, sector := sector2,
        sector_remaining_bytes := nb, offset := offset2 }
  else
    let s := flog_increment_sector file.sector
    let nb := fl.spare_nbytes file.block s
    if u16_eq_minus1 nb then none
    else
      let offset2 := if s = FLOG_FILE_TAIL_SECTOR then SIZEOF_FILE_TAIL_SECTOR_HEADER
        else if s = 0 then SIZEOF_FILE_SECTOR0_HEADER else 0
      some { file with sector := s, sector_remaining_bytes := nb, offset := offset2 }

/-- Model of the `while (nbytes)` loop of `flogfs_read`; `fuel` bounds the
iterations, `none` meaning the loop has not produced a result within the
bound. -/
def flogfs_read_loop (fl : ReadFlash) (file : flog_read_file_t)
    (nbytes count : Nat) : Nat → Option (Nat × flog_read_file_t)
  | 0 => none
  | fuel + 1 =>
    if nbytes = 0 then some (count, file)
    else
      match (if file.sector_remaining_bytes = 0 then flogfs_read_advance fl file
             else some file) with
      | none => some (count, file)
      | some f2 =>
        let to_read := min nbytes f2.sector_remaining_bytes
        let f3 := { f2 with
          offset := f2.offset + to_read
          sector_remaining_bytes := f2.sector_remaining_bytes - to_read
          read_head := addU32 f2.read_head to_read }
        flogfs_read_loop fl f3 (nbytes - to_read) (addU32 count to_read) fuel

/-- Model of `flogfs_read(file, dst, nbytes)`, returning the count and the
file state.  The read performs no flash writes, so no log is produced. -/
def flogfs_read (fuel : Nat) (fl : ReadFlash) (file : flog_read_file_t)
    (nbytes : Nat) : Option (Nat × flog_read_file_t) :=
  flogfs_read_loop fl file nbytes 0 fuel

/-- Flash view for the C4 scenario: on block 7, sector 5 is in the erased
state (spare `nbytes` reads `0xFFFF`); every other sector claims 100 bytes. -/
def readFlashErasedNext : ReadFlash :=
  { spare_nbytes := fun b s => if b = 7 ∧ s = 5 then 0xFFFF else 100
    tail_next_block := fun _ => 0xFFFF
    sector0_file_id := fun _ => 0 }

/-- Read file on block 7 with sector 4 exhausted; the next sector in order is
the erased sector 5. -/
def readFileAtErasedBoundary : flog_read_file_t :=
  { read_head := 0, block := 7, sector := 4, offset := 0
    sector_remaining_bytes := 0, id := 1 }

/-- C4: when the current sector is exhausted and the next sector's spare
`nbytes` is the erased-state value `0xFFFF`, `flogfs_read` does not stop at
EOF: the test `file_sector_spare.nbytes == -1` promotes the `uint16_t` to a
32-bit `int`, so it is false for `0xFFFF`, and the read continues into the
erased sector treating `0xFFFF` as a byte count — here a 3-byte read returns
3 bytes of erased flash instead of the 0 the claim requires. -/
theorem c4_read_does_not_stop_at_erased_sector :
    flogfs_read 10 readFlashErasedNext readFileAtErasedBoundary 3 =
      some (3, { readFileAtErasedBoundary with
        sector := 5, sector_remaining_bytes := 65532, offset := 3, read_head := 3 }) := by
  rfl

/-! ## The seek-to-end phase of flogfs_open_write for an existing file -/

/-- Read-only views of the flash contents consumed by the seek phase of
`flogfs_open_write`: each block's tail-sector header fields (`timestamp`,
`next_block`, `bytes_in_block`) and the spare `nbytes` of each sector. -/
structure SeekFlash where
  tail_ts : Nat → Nat
  tail_next_block : Nat → Nat
  tail_bytes_in_block : Nat → Nat
  spare_nbytes : Nat → Nat → Nat

/-- First seek loop of `flogfs_open_write` over `(file->block,
file->write_head)`: the source reads the tail-sector header of the current
block and breaks when its `timestamp != FLOG_TIMESTAMP_INVALID` (a written,
hence completed, tail — though the adjacent comment calls the block
incomplete); otherwise it moves to `next_block` and adds the tail's
`bytes_in_block` to the write head. -/
def flogfs_open_write_follow (fl : SeekFlash) : Nat → Nat × Nat → Option (Nat × Nat)
  | 0, _ => none
  | fuel + 1, (block, head) =>
    if fl.tail_ts block ≠ FLOG_TIMESTAMP_INVALID then some (block, head)
    else
      flogfs_open_write_follow fl fuel
        (fl.tail_next_block block, addU32 head (fl.tail_bytes_in_block block))

/-- Second seek loop of `flogfs_open_write` over `(file->sector,
file->write_head)`: scan the chosen block's sectors in write order, stopping
at a sector whose spare `nbytes == -1`; because of the `uint16_t` promotion
this test is false even for the erased-state `0xFFFF`, so the loop can only
ever accumulate `nbytes` and advance.  On the (unreachable) stop, the result
is the writable position `(sector, offset, sector_remaining_bytes,
write_head)`. -/
def flogfs_open_write_scan (fl : SeekFlash) (block : Nat) :
    Nat → Nat × Nat → Option (Nat × Nat × Nat × Nat)
  | 0, _ => none
  | fuel + 1, (sector, head) =>
    let nb := fl.spare_nbytes block sector
    if u16_eq_minus1 nb then
      let offset := if sector = FLOG_FILE_TAIL_SECTOR then SIZEOF_FILE_TAIL_SECTOR_HEADER
        else 0
      some (sector, offset, FS_SECTOR_SIZE - offset, head)
    else
      flogfs_open_write_scan fl block fuel
        (flog_increment_sector sector, addU32 head nb)

/-- Whole seek-to-end phase of `flogfs_open_write` for an existing file
starting at `first_block`: follow tail sectors, then account sector 0 of the
chosen block and scan from the next sector in order. -/
def flogfs_open_write_seek (fuel : Nat) (fl : SeekFlash) (first_block : Nat) :
    Option (Nat × (Nat × Nat × Nat × Nat)) :=
  match flogfs_open_write_follow fl fuel (first_block, 0) with
  | none => none
  | some (block, head) =>
    let head2 := addU32 head (fl.spare_nbytes block 0)
    match flogfs_open_write_scan fl block fuel (flog_increment_sector 0, head2) with
    | none => none
    | some r => some (block, r)

/-- Flash view for the C5 scenario: the file starts at block 3, whose tail is
completed (`timestamp = 7`, `next_block = 9`, `bytes_in_block = 1000`) and
whose data sectors are all written with 504-byte spares; block 9 is the
incomplete last block (tail erased), with sectors 0 and 1 written (504 and
512 bytes) and everything else erased. -/
def seekFlashTwoBlocks : SeekFlash :=
  { tail_ts := fun b => if b = 3 then 7 else 0xFFFFFFFF
    tail_next_block := fun b => if b = 3 then 9 else 0xFFFF
    tail_bytes_in_block := fun b => if b = 3 then 1000 else 0xFFFF
    spare_nbytes := fun b s =>
      if b = 3 then 504
      else if b = 9 ∧ s = 0 then 504
      else if b = 9 ∧ s = 1 then 512
      else 0xFFFF }

/-- C5: on a two-block file whose first block 3 has a completed tail
(timestamp 7 is set) and whose second block 9 is incomplete, the seek loop of
`flogfs_open_write` stops at block 3 with `write_head = 0` instead of
following the completed tail to block 9 and accumulating `bytes_in_block =
1000` as the claim requires — the source breaks when the tail timestamp is
set, the opposite of the claimed condition.  The subsequent sector scan then
never finds an erased sector (the `nbytes == -1` test is false even for
`0xFFFF`), so the whole seek produces no result within any fuel bound. -/
theorem c5_open_write_seek_stops_at_completed_tail :
    flogfs_open_write_follow seekFlashTwoBlocks 10 (3, 0) = some (3, 0) ∧
    flogfs_open_write_seek 20 seekFlashTwoBlocks 3 = none := by
  exact ⟨rfl, rfl⟩

/-! ## Inode iterator (flog_inode_iterator_next) -/

structure flog_inode_iterator_t where
  block : Nat
  next_block : Nat
  inode_idx : Nat
  inode_block_idx : Nat
  sector : Nat
  deriving DecidableEq, Repr

/-- Model of `flog_inode_iterator_next(iter)`.  `tail_next` is the flash read
of the `next_block` field in a block's inode tail sector.  At the one-past-end
position (`sector == FS_SECTORS_PER_BLOCK`) the call returns unchanged.
Otherwise `sector` advances by 2 and `inode_idx` by 1; if `sector` then
reaches `FS_SECTORS_PER_BLOCK` and `next_block` exists, the source updates
`block` to `next_block` and refreshes `next_block` from the new block's tail,
but then assigns `iter->sector = FS_SECTORS_PER_BLOCK` in both branches. -/
def flog_inode_iterator_next (tail_next : Nat → Nat)
    (iter : flog_inode_iterator_t) : flog_inode_iterator_t :=
  if iter.sector = FS_SECTORS_PER_BLOCK then iter
  else
    let sector := iter.sector + 2
    let inode_idx := iter.inode_idx + 1
    if FS_SECTORS_PER_BLOCK ≤ sector then
      if iter.next_block ≠ FLOG_BLOCK_IDX_INVALID then
        { iter with
          block := iter.next_block
          next_block := tail_next iter.next_block
          inode_idx := inode_idx
          sector := FS_SECTORS_PER_BLOCK }
      else
        { iter with inode_idx := inode_idx, sector := FS_SECTORS_PER_BLOCK }
    else
      { iter with sector := sector, inode_idx := inode_idx }

/-- Iterator positioned at the last inode entry of its block (sector 254 of
256), with an existing successor block 5. -/
def iterAtLastEntry : flog_inode_iterator_t :=
  { block := 1, next_block := 5, inode_idx := 10, inode_block_idx := 0, sector := 254 }

/-- C8: advancing the iterator past the last entry of a block whose
`next_block = 5` exists updates `block` to 5 (reading the new tail, here
`0xFFFF`), but leaves `sector` at the one-past-end value
`FS_SECTORS_PER_BLOCK = 256` instead of continuing at the first entry sector
`FS_SECTORS_PER_PAGE = 4` of block 5 as the claim requires; the iterator is
stuck (every further `next()` returns it unchanged). -/
theorem c8_iterator_next_does_not_enter_next_block :
    flog_inode_iterator_next (fun _ => 0xFFFF) iterAtLastEntry =
      { block := 5, next_block := 0xFFFF, inode_idx := 11, inode_block_idx := 0,
        sector := FS_SECTORS_PER_BLOCK } ∧
    FS_SECTORS_PER_BLOCK ≠ FS_SECTORS_PER_PAGE := by
  exact ⟨rfl, by decide⟩

/-! ## Closing a read file (flogfs_close_read)

The in-RAM singly-linked list of open read files is modelled as the list of
file identities reachable from `flogfs.read_head`. -/

/-- Model of the `while (iter->next)` loop of `flogfs_close_read`, with
`iter` fixed at the head `x` and `rest` the chain after it.  The body
unlinks `f` when `iter->next == f` but never advances `iter`, so when the
remaining chain is nonempty and its head is not `f` the loop repeats the same
test forever; `fuel` bounds the iterations and `none` models the
non-terminating loop. -/
def flogfs_close_read_loop (x f : Nat) : List Nat → Nat → Option (List Nat)
  | _, 0 => none
  | rest, fuel + 1 =>
    match rest with
    | [] => some [x]
    | y :: ys =>
      if y = f then flogfs_close_read_loop x f ys fuel
      else flogfs_close_read_loop x f (y :: ys) fuel

/-- Model of `flogfs_close_read(file)` acting on the read list.  When the
head is the closed file the source assigns `flogfs.read_head = 0`, emptying
the whole list; when the list is empty the else branch dereferences the NULL
head (`none`).  (The C function is also declared `flog_result_t` but has no
return statement.) -/
def flogfs_close_read (fuel : Nat) (l : List Nat) (f : Nat) : Option (List Nat) :=
  match l with
  | [] => none
  | x :: rest => if x = f then some [] else flogfs_close_read_loop x f rest fuel

/-- C10: closing the head file of the read list `[1, 2]` empties the whole
list — file 2 is no longer reachable from `read_head` — instead of leaving
`[2]`; and closing file 2 in the list `[1, 2, 3]` never terminates (after
unlinking 2 the loop keeps testing the same link against 3 without
advancing), instead of leaving `[1, 3]`. -/
theorem c10_close_read_loses_other_files :
    flogfs_close_read 100 [1, 2] 1 = some [] ∧
    flogfs_close_read 100 [1, 2, 3] 2 = none := by
  exact ⟨rfl, rfl⟩

/-! ## Mount (flogfs_mount)

The mount pass is modelled over a description of what its flash reads
return: one `BlockScan` per block for the first pass, the inode entries the
iterator would deliver for the second pass, and point reads for the two
recovery checks.  The in-RAM fields `flogfs_mount` can mutate are `state`,
`max_file_id` and `t` (its free-block count is a local variable that is never
stored into the filesystem structure). -/

def FLOG_STATE_RESET : Nat := 0

def FLOG_STATE_MOUNTED : Nat := 1

structure FsRam where
  state : Nat
  max_file_id : Nat
  t : Nat
  deriving DecidableEq, Repr

/-- What the first mount pass learns about one block from page 0: failure to
open, the bad-block mark, an inode block (invalidation-sector timestamp,
sector-0 age, spare inode index), a file block (tail-sector timestamp,
next_block, next_age; sector-0 file_id and age), a free block, or any other
spare type byte (ignored by the switch). -/
inductive BlockScan where
  | openFail
  | bad
  | inode (invalTs age inodeIdx : Nat)
  | file (tailTs tailNextBlock tailNextAge fileId age : Nat)
  | unalloc
  | other
  deriving DecidableEq, Repr

/-- One inode-table entry as the second mount pass reads it: the allocation
header and the companion invalidation sector. -/
structure InodeEntryScan where
  file_id : Nat
  first_block : Nat
  first_block_age : Nat
  timestamp : Nat
  invalTs : Nat
  last_block : Nat
  deriving DecidableEq, Repr

structure MountFlash where
  blocks : List BlockScan
  entries : List InodeEntryScan
  sector0_file_id : Nat → Nat
  inval_ts : Nat → Nat
  tail_next_block : Nat → Nat
  tail_next_age : Nat → Nat
  inval_next_age : Nat → Nat

/-- Accumulator of the first mount pass: the best last-allocation candidate
seen so far, the count of free blocks, the inode0 candidate, and the maximum
block age.  The unassigned `last_allocation.block/age/file_id` fields are
modelled as their C initial values (`block = FLOG_BLOCK_IDX_INVALID`) and 0. -/
structure MountAcc where
  last_alloc_block : Nat
  last_alloc_age : Nat
  last_alloc_file_id : Nat
  last_alloc_ts : Nat
  num_free_blocks : Nat
  inode0_idx : Nat
  max_block_age : Nat
  deriving DecidableEq, Repr

/-- Effect of block `i` on the first-pass accumulator, one case per arm of
the switch in the source. -/
def mountBlockStep (acc : MountAcc) (i : Nat) : BlockScan → MountAcc
  | .openFail => acc
  | .bad => acc
  | .inode invalTs age inodeIdx =>
    let acc1 := if invalTs = 0xFFFFFFFF then
        (if inodeIdx = 0 then { acc with inode0_idx := i } else acc)
      else acc
    if acc1.max_block_age < age then { acc1 with max_block_age := age } else acc1
  | .file tailTs tailNextBlock tailNextAge fileId age =>
    let acc1 := if tailTs = 0xFFFFFFFF then acc
      else if acc.last_alloc_ts < tailTs then
        { acc with
          last_alloc_ts := tailTs
          last_alloc_block := tailNextBlock
          last_alloc_age := tailNextAge
          last_alloc_file_id := fileId }
      else acc
    if acc1.max_block_age < age then { acc1 with max_block_age := age } else acc1
  | .unalloc => { acc with num_free_blocks := acc.num_free_blocks + 1 }
  | .other => acc

def mountBlockPass (acc : MountAcc) (i : Nat) : List BlockScan → MountAcc
  | [] => acc
  | b :: rest => mountBlockPass (mountBlockStep acc i b) (i + 1) rest

structure AllocInfo where
  block : Nat
  age : Nat
  file_id : Nat
  ts : Nat
  deriving DecidableEq, Repr

structure DelInfo where
  first_block : Nat
  last_block : Nat
  file_id : Nat
  ts : Nat
  deriving DecidableEq, Repr

/-- Second mount pass: walk the inode entries, breaking at the first entry
whose `file_id == FLOG_FILE_ID_INVALID` (reads past the prepared entries
return erased flash, which is the same terminator).  Each visited entry
overwrites `max_file_id`; live entries compete for the latest allocation,
deleted ones for the latest deletion. -/
def mountInodePass (alloc : AllocInfo) (del : DelInfo) (maxFileId : Nat) :
    List InodeEntryScan → AllocInfo × DelInfo × Nat
  | [] => (alloc, del, maxFileId)
  | e :: rest =>
    if e.file_id = FLOG_FILE_ID_INVALID then (alloc, del, maxFileId)
    else
      if e.invalTs = FLOG_TIMESTAMP_INVALID then
        let alloc2 := if alloc.ts < e.timestamp then
            ⟨e.first_block, e.first_block_age, e.file_id, e.timestamp⟩
          else alloc
        mountInodePass alloc2 del e.file_id rest
      else
        let del2 := if del.ts < e.invalTs then
            ⟨e.first_block, e.last_block, e.file_id, e.invalTs⟩
          else del
        mountInodePass alloc del2 e.file_id rest

/-- Model of `flog_invalidate_chain(base)`: walk the file chain, writing and
committing an invalidation sector (8 bytes) for each not-yet-invalidated
block and skipping already-invalidated ones, stopping at a block whose
invalidation records no successor age or whose tail has no next block.  The
timestamp `t` advances with each written invalidation. -/
def flog_invalidate_chain (mf : MountFlash) (t base : Nat) (log : List FlashOp) :
    Nat → Option (Nat × List FlashOp)
  | 0 => none
  | fuel + 1 =>
    if mf.inval_ts base ≠ FLOG_TIMESTAMP_INVALID then
      if mf.inval_next_age base = FLOG_BLOCK_AGE_INVALID then some (t, log)
      else if mf.tail_next_block base = FLOG_BLOCK_IDX_INVALID then some (t, log)
      else flog_invalidate_chain mf t (mf.tail_next_block base) log fuel
    else
      let t2 := addU32 t 1
      let log2 := log ++
        [FlashOp.writeSector base FLOG_FILE_INVALIDATION_SECTOR 0 8, FlashOp.commit]
      if mf.tail_next_block base = FLOG_BLOCK_IDX_INVALID then some (t2, log2)
      else flog_invalidate_chain mf t2 (mf.tail_next_block base) log2 fuel

/-- Model of `flogfs_mount()`: the two scan passes, the allocation-recovery
check (erase and re-initialize the referenced successor block when its
`file_id` does not match, setting `t`), and the deletion-recovery check.  The
returned triple is the `flog_result_t`, the in-RAM state after the call, and
the log of flash write operations.  Note that no branch of the source
assigns `flogfs.state`. -/
def flogfs_mount (chainFuel : Nat) (mf : MountFlash) (ram : FsRam) :
    Option (Nat × FsRam × List FlashOp) :=
  let acc0 : MountAcc := ⟨FLOG_BLOCK_IDX_INVALID, 0, 0, 0, 0, FLOG_BLOCK_IDX_INVALID, 0⟩
  let acc := mountBlockPass acc0 0 mf.blocks
  if acc.inode0_idx = FLOG_BLOCK_IDX_INVALID then some (FLOG_FAILURE, ram, [])
  else
    let r := mountInodePass
      ⟨acc.last_alloc_block, acc.last_alloc_age, acc.last_alloc_file_id, acc.last_alloc_ts⟩
      ⟨0, 0, FLOG_FILE_ID_INVALID, 0⟩ ram.max_file_id mf.entries
    let alloc := r.1
    let del := r.2.1
    let mfid := r.2.2
    let recov :=
      if 0 < alloc.ts then
        if mf.sector0_file_id alloc.block ≠ alloc.file_id then
          (addU32 alloc.ts 1,
           [FlashOp.eraseBlock alloc.block,
            FlashOp.writeSector alloc.block 0 0 SIZEOF_FILE_SECTOR0_HEADER,
            FlashOp.writeSpare alloc.block 0,
            FlashOp.commit])
        else (ram.t, ([] : List FlashOp))
      else (ram.t, ([] : List FlashOp))
    let chain :=
      if 0 < del.ts then
        if mf.sector0_file_id del.last_block = del.file_id then
          if mf.inval_ts del.last_block ≠ FLOG_TIMESTAMP_INVALID then
            flog_invalidate_chain mf recov.1 del.first_block [] chainFuel
          else some (recov.1, [])
        else some (recov.1, [])
      else some (recov.1, [])
    match chain with
    | none => none
    | some (t3, log2) =>
      some (FLOG_SUCCESS, { ram with max_file_id := mfid, t := t3 }, recov.2 ++ log2)

/-- Flash description of a freshly formatted, consistent medium: block 0 is
the live inode0 (erased invalidation sector, age 0, inode index 0), the
remaining blocks are free, and the inode table holds no entries. -/
def mountFlashFresh : MountFlash :=
  { blocks := BlockScan.inode 0xFFFFFFFF 0 0 ::
      List.replicate (FS_NUM_BLOCKS - 1) BlockScan.unalloc
    entries := []
    sector0_file_id := fun _ => 0
    inval_ts := fun _ => 0xFFFFFFFF
    tail_next_block := fun _ => 0xFFFF
    tail_next_age := fun _ => 0xFFFFFFFF
    inval_next_age := fun _ => 0xFFFFFFFF }

/-- In-RAM state left by `flogfs_init`: state `FLOG_STATE_RESET`,
`max_file_id = 0`, `t = 0`. -/
def ramAfterInit : FsRam := ⟨FLOG_STATE_RESET, 0, 0⟩

set_option maxRecDepth 100000 in
/-- C6: mounting a consistent freshly formatted medium succeeds, but the
filesystem state field is left exactly as `flogfs_init` set it — no branch of
`flogfs_mount` assigns `flogfs.state`, so the state after a successful mount
is `FLOG_STATE_RESET`, not `FLOG_STATE_MOUNTED`, and a second `mount()` call
re-runs the full scan instead of being guarded by an already-MOUNTED state. -/
theorem c6_mount_never_sets_mounted_state :
    flogfs_mount 10 mountFlashFresh ramAfterInit =
      some (FLOG_SUCCESS, ramAfterInit, []) ∧
    ramAfterInit.state = FLOG_STATE_RESET ∧
    FLOG_STATE_RESET ≠ FLOG_STATE_MOUNTED := by
  exact ⟨rfl, rfl, by decide⟩

end FLogFS
